import Mathlib

/-!
Shallow embedding of the lifecycle / sync-status logic of the
`PackageRevisionPage` component
(`plugins/cad/src/components/PackageRevisionPage/PackageRevisionPage.tsx`)
and of `getRoleBindingStructuredMetadata`
(role-binding structured-metadata helper), with theorems settling the
frozen claims about the natural-language specification.

Conventions of the embedding:
- TypeScript `T | undefined` becomes `Option T`; the page's
  `RootSync | null | undefined` state becomes `Option (Option RootSync)`
  (`none` = undefined / not yet resolved, `some none` = null / resolved
  absent, `some (some rs)` = present).
- JavaScript truthiness is translated explicitly where the source relies
  on it: an object is truthy, `null`/`undefined` are falsy, and a string
  is truthy iff it is nonempty.
- Fallible backend calls become `Except ApiError` valued function
  parameters; `try { ... } finally { ... }` becomes a `match` on the
  call's result in which both branches clear the in-flight flag.
- TypeScript string enums (`PackageRevisionLifecycle`, the external
  `SyncStatusState`) are runtime strings; the lifecycle enum is closed in
  this component so it is an inductive, while `SyncStatusState` values
  flow in from an external derivation function, so `SyncStatus.state` is
  a `String` (this is what makes the `default` arm of the severity
  switch reachable, exactly as in the source).
-/

namespace Cad

/-- Backend errors are opaque messages. -/
abbrev ApiError := String

/-- Lifecycle enum of a package revision (`PackageRevisionLifecycle`). -/
inductive PackageRevisionLifecycle where
  | DRAFT
  | PROPOSED
  | PUBLISHED
deriving DecidableEq, Repr

/-- Modelled from the spec: `PackageRevision.metadata` — the unique name
identifying the revision (the type itself lives outside the given
sources; the spec's data model lists `metadata.name`). -/
structure PackageRevisionMetadata where
  name : String
deriving DecidableEq, Repr

/-- Modelled from the spec: `PackageRevision.spec` — the lifecycle state
plus a reference to the owning repository and the package name (the spec
lists `spec.lifecycle` and a reference to the owning repository; extra
fields witness that a transition touches only `lifecycle`). -/
structure PackageRevisionSpec where
  packageName : String
  repository : String
  lifecycle : PackageRevisionLifecycle
deriving DecidableEq, Repr

/-- A versioned package revision. -/
structure PackageRevision where
  metadata : PackageRevisionMetadata
  spec : PackageRevisionSpec
deriving DecidableEq, Repr

/-- Modelled from the spec: the git secret reference of a repository
(`repository.spec.git?.secretRef?.name` is the only field this component
reads). -/
structure SecretRef where
  name : String
deriving DecidableEq, Repr

/-- Modelled from the spec: the git configuration of a repository, holding
an optional secret reference. -/
structure GitConfig where
  secretRef : Option SecretRef
deriving DecidableEq, Repr

/-- Modelled from the spec: the spec of a repository (only the optional
git configuration is consumed here). -/
structure RepositorySpec where
  git : Option GitConfig
deriving DecidableEq, Repr

/-- Modelled from the spec: a source repository (name plus spec). -/
structure Repository where
  name : String
  spec : RepositorySpec
deriving DecidableEq, Repr

/-- Modelled from the spec: a repository summary — the repository itself
plus its downstream repositories (targets a package could be
deployed/cloned to). -/
structure RepositorySummary where
  repository : Repository
  downstreamRepositories : List Repository
deriving DecidableEq, Repr

/-- Modelled from the spec: the raw status object reported on a RootSync
by the reconciler; consumed only by the external status-derivation
function, so its content is abstract here. -/
structure RootSyncStatus where
  observedState : String
deriving DecidableEq, Repr

/-- Modelled from the spec: metadata of a RootSync resource. -/
structure RootSyncMetadata where
  name : String
deriving DecidableEq, Repr

/-- A GitOps sync resource: `metadata.name`, an optional `status` (absent
until the backend's reconciler first reports), and the binding recorded
at construction time (repository, revision, secret name). -/
structure RootSync where
  metadata : RootSyncMetadata
  repositoryName : String
  packageRevisionName : String
  secretName : String
  status : Option RootSyncStatus
deriving DecidableEq, Repr

/-- Derived sync-status classification (`SyncStatus` of
`utils/configSync`). Its `state` is a TypeScript string-enum value at
runtime (`Synced`, `Reconciling`, `Pending`, `Stalled`, `Error`), so it
is modelled as a `String`. -/
structure SyncStatus where
  state : String
  errors : Option (List String)
deriving DecidableEq, Repr

/-- Modelled from the spec: a Kubernetes secret (name plus opaque
payload; the component copies the payload between secrets). -/
structure SecretMetadata where
  name : String
deriving DecidableEq, Repr

/-- Modelled from the spec: a secret resource. -/
structure Secret where
  metadata : SecretMetadata
  data : List (String × String)
deriving DecidableEq, Repr

/-- Severity mapping of `getAlertSeverity` (source lines 291–304): the
switch over `SyncStatusState` with a fail-safe `default` arm. -/
def getAlertSeverity (thisSyncStatus : SyncStatus) : String :=
  if thisSyncStatus.state = "Error" ∨ thisSyncStatus.state = "Stalled" then "error"
  else if thisSyncStatus.state = "Reconciling" ∨ thisSyncStatus.state = "Pending" then "info"
  else if thisSyncStatus.state = "Synced" then "success"
  else "error"

/-- Banner produced by `getCurrentSyncStatus` (source lines 289–332):
either a status alert, the `No Status` warning, or an empty fragment. -/
inductive SyncBanner where
  | statusAlert (severity : String) (state : String)
  | noStatusWarning
  | emptyFragment
deriving DecidableEq, Repr

/-- Embedding of `getCurrentSyncStatus`: with a derived sync status,
render a status alert at the mapped severity; otherwise with a truthy
`rootSync` render the `No Status` warning; otherwise an empty
fragment. -/
def getCurrentSyncStatus (syncStatus : Option SyncStatus)
    (rootSync : Option (Option RootSync)) : SyncBanner :=
  match syncStatus with
  | some s => SyncBanner.statusAlert (getAlertSeverity s) s.state
  | none =>
    match rootSync with
    | some (some _) => SyncBanner.noStatusWarning
    | _ => SyncBanner.emptyFragment

/-- Embedding of `refreshSeconds` (source line 172):
`rootSync.status ? 5 : 1` — a status object is always truthy. -/
def refreshSeconds (rootSync : RootSync) : Nat :=
  match rootSync.status with
  | some _ => 5
  | none => 1

/-- The timeout passed to `setTimeout` (source lines 173–176), in
milliseconds. -/
def refreshTimeoutMillis (rootSync : RootSync) : Nat :=
  refreshSeconds rootSync * 1000

/-- Poll scheduling of the `refreshRootSync` effect (source lines
165–184): a timer is scheduled only when `rootSync` is truthy (an actual
resource); its delay in seconds comes from `refreshSeconds`. -/
def scheduledPollSeconds (rootSync : Option (Option RootSync)) : Option Nat :=
  match rootSync with
  | some (some rs) => some (refreshSeconds rs)
  | _ => none

/-- Embedding of the sync-status derivation effect (source lines
186–193): `if (rootSync && rootSync.status)` derive via the external
`getSyncStatus` (a black-box parameter), else set undefined. -/
def deriveSyncStatus (getSyncStatus : RootSyncStatus → SyncStatus)
    (rootSync : Option (Option RootSync)) : Option SyncStatus :=
  match rootSync with
  | some (some rs) =>
    match rs.status with
    | some st => some (getSyncStatus st)
    | none => none
  | _ => none

/-- Embedding of `packageRevision.metadata.name.replaceAll(':', '-')`
(source line 266); `replaceAll` with the single-character pattern `:` is
the character-wise map sending `:` to `-`. -/
def sanitizeRevisionName (s : String) : String :=
  String.mk (s.data.map fun c => if c = ':' then '-' else c)

/-- Embedding of the sync-secret name derivation (source lines 266–267):
`` `${baseName}-sync` `` over the sanitized revision name. -/
def syncSecretName (revisionName : String) : String :=
  sanitizeRevisionName revisionName ++ "-sync"

/-- The pure deep-copy-then-mutate idiom of the transitions:
`cloneDeep(packageRevision)` followed by assigning `spec.lifecycle`.
In a pure setting the deep copy is the identity, so the result is the
original revision with only the lifecycle field changed. -/
def withLifecycle (packageRevision : PackageRevision)
    (lifecycle : PackageRevisionLifecycle) : PackageRevision :=
  { packageRevision with spec := { packageRevision.spec with lifecycle := lifecycle } }

/-- Which backend endpoint a lifecycle transition submits to:
`api.replacePackageRevision` or `api.approvePackageRevision`. -/
inductive TransitionEndpoint where
  | replacePackageRevision
  | approvePackageRevision
deriving DecidableEq, Repr

/-- The component state a lifecycle transition reads and writes: the
locally held revision and the in-flight `userInitiatedApiRequest`
flag. -/
structure PageState where
  packageRevision : PackageRevision
  userInitiatedApiRequest : Bool
deriving DecidableEq, Repr

/-- Observable outcome of one lifecycle transition: the endpoint called,
the full resource submitted, the component state after the
`try`/`finally` completes, and the propagated error if the call threw. -/
structure TransitionResult where
  endpoint : TransitionEndpoint
  request : PackageRevision
  finalState : PageState
  error : Option ApiError
deriving DecidableEq, Repr

/-- Common body of the three transitions (source lines 207–256): set the
in-flight flag, deep-copy the held revision and set its lifecycle, submit
the whole resource, adopt the server's returned resource on success; the
`finally` clears the flag on both branches, and a thrown error leaves the
held revision untouched and propagates. -/
def runTransition (endpoint : TransitionEndpoint)
    (lifecycle : PackageRevisionLifecycle) (st : PageState)
    (server : PackageRevision → Except ApiError PackageRevision) :
    TransitionResult :=
  let inFlight : PageState := { st with userInitiatedApiRequest := true }
  let targetPackageRevision := withLifecycle inFlight.packageRevision lifecycle
  match server targetPackageRevision with
  | Except.ok updated =>
    { endpoint := endpoint
      request := targetPackageRevision
      finalState := { inFlight with
        packageRevision := updated
        userInitiatedApiRequest := false }
      error := none }
  | Except.error e =>
    { endpoint := endpoint
      request := targetPackageRevision
      finalState := { inFlight with userInitiatedApiRequest := false }
      error := some e }

/-- Embedding of `moveToDraft` (source lines 207–222): replace the whole
resource with lifecycle set to `DRAFT` via `api.replacePackageRevision`. -/
def moveToDraft (st : PageState)
    (server : PackageRevision → Except ApiError PackageRevision) :
    TransitionResult :=
  runTransition TransitionEndpoint.replacePackageRevision
    PackageRevisionLifecycle.DRAFT st server

/-- Embedding of `moveToProposed` (source lines 224–239): replace the
whole resource with lifecycle set to `PROPOSED` via
`api.replacePackageRevision`. -/
def moveToProposed (st : PageState)
    (server : PackageRevision → Except ApiError PackageRevision) :
    TransitionResult :=
  runTransition TransitionEndpoint.replacePackageRevision
    PackageRevisionLifecycle.PROPOSED st server

/-- Embedding of `approvePackage` (source lines 241–256): submit the
whole resource with lifecycle set to `PUBLISHED` via
`api.approvePackageRevision`. -/
def approvePackage (st : PageState)
    (server : PackageRevision → Except ApiError PackageRevision) :
    TransitionResult :=
  runTransition TransitionEndpoint.approvePackageRevision
    PackageRevisionLifecycle.PUBLISHED st server

/-- Modelled from the spec: `getRootSyncSecret` of `utils/configSync`
(not under the given sources) — derive a new sync-specific secret under
the given name from the repository secret. -/
def getRootSyncSecret (name : String) (repoSecret : Secret) : Secret :=
  { metadata := { name := name }, data := repoSecret.data }

/-- Modelled from the spec: `getRootSync` of `utils/configSync` (not
under the given sources) — construct a sync resource binding the
repository, the revision, and the new secret's name; a freshly
constructed sync has no status yet. -/
def getRootSync (repository : Repository) (packageRevision : PackageRevision)
    (secretName : String) : RootSync :=
  { metadata := { name := sanitizeRevisionName packageRevision.metadata.name }
    repositoryName := repository.name
    packageRevisionName := packageRevision.metadata.name
    secretName := secretName
    status := none }

/-- One backend call issued by `createSync`, recorded in order. -/
inductive SyncApiCall where
  | getSecret (name : String)
  | createSecret (secret : Secret)
  | createRootSync (resource : RootSync)
deriving DecidableEq, Repr

/-- The fallible backend surface `createSync` uses. -/
structure SyncApi where
  getSecret : String → Except ApiError Secret
  createSecret : Secret → Except ApiError Secret
  createRootSync : RootSync → Except ApiError RootSync

/-- Observable outcome of `createSync`: the backend calls issued in
order, the tracked RootSync state after completion, the in-flight flag
after the `finally`, and the propagated error if a step threw. -/
structure CreateSyncResult where
  calls : List SyncApiCall
  rootSync : Option (Option RootSync)
  userInitiatedApiRequest : Bool
  error : Option ApiError
deriving Repr

/-- Embedding of `createSync` (source lines 258–287). The guard
`if (repoSecretName)` is JavaScript truthiness on
`repository.spec.git?.secretRef?.name : string | undefined`: an absent
name or the empty string is falsy and skips the whole body (no backend
call, no error). Otherwise the steps run strictly in sequence — get the
repository secret, derive the sync secret, create it, construct the sync
resource from the created secret's name, create it, adopt the result —
and any thrown error propagates past the body while the `finally` clears
the in-flight flag. -/
def createSync (repositorySummary : RepositorySummary)
    (packageRevision : PackageRevision)
    (rootSync : Option (Option RootSync)) (api : SyncApi) :
    CreateSyncResult :=
  let repoSecretName :=
    (repositorySummary.repository.spec.git.bind GitConfig.secretRef).map SecretRef.name
  match repoSecretName with
  | none =>
    { calls := [], rootSync := rootSync, userInitiatedApiRequest := false, error := none }
  | some secretNameValue =>
    if secretNameValue = "" then
      { calls := [], rootSync := rootSync, userInitiatedApiRequest := false, error := none }
    else
      let newSecretName := syncSecretName packageRevision.metadata.name
      match api.getSecret secretNameValue with
      | Except.error e =>
        { calls := [SyncApiCall.getSecret secretNameValue]
          rootSync := rootSync
          userInitiatedApiRequest := false
          error := some e }
      | Except.ok repoSecret =>
        let syncSecret := getRootSyncSecret newSecretName repoSecret
        match api.createSecret syncSecret with
        | Except.error e =>
          { calls := [SyncApiCall.getSecret secretNameValue,
                      SyncApiCall.createSecret syncSecret]
            rootSync := rootSync
            userInitiatedApiRequest := false
            error := some e }
        | Except.ok createdSyncSecret =>
          let rootSyncResource :=
            getRootSync repositorySummary.repository packageRevision
              createdSyncSecret.metadata.name
          match api.createRootSync rootSyncResource with
          | Except.error e =>
            { calls := [SyncApiCall.getSecret secretNameValue,
                        SyncApiCall.createSecret syncSecret,
                        SyncApiCall.createRootSync rootSyncResource]
              rootSync := rootSync
              userInitiatedApiRequest := false
              error := some e }
          | Except.ok newRootSync =>
            { calls := [SyncApiCall.getSecret secretNameValue,
                        SyncApiCall.createSecret syncSecret,
                        SyncApiCall.createRootSync rootSyncResource]
              rootSync := some (some newRootSync)
              userInitiatedApiRequest := false
              error := none }

/-- The page mode (`PackageRevisionPageMode`). -/
inductive PackageRevisionPageMode where
  | EDIT
  | VIEW
deriving DecidableEq, Repr

/-- One element pushed onto `options` by `renderOptions`, abstracted from
its JSX to the option's identity (and, for the sync-status display, the
banner it shows). The `lifecycleLabel` is the plain `div` showing the
lifecycle and package descriptor; everything else is an action control. -/
inductive PageOption where
  | cancelButton
  | saveButton
  | lifecycleLabel (lifecycle : PackageRevisionLifecycle) (descriptor : String)
  | editButton
  | proposeButton
  | moveToDraftButton
  | approveButton
  | syncStatusDisplay (banner : SyncBanner)
  | createSyncButton
  | deployButton
deriving DecidableEq, Repr

/-- An option is an action control (a button or the sync-status display),
as opposed to the plain lifecycle/descriptor label `div`. -/
def isActionOption : PageOption → Bool
  | PageOption.lifecycleLabel _ _ => false
  | _ => true

/-- Embedding of `renderOptions` (source lines 354–488). The external
predicates `isDeploymentRepository` and `canCloneOrDeploy` and the
descriptor function `getPackageDescriptor` live outside the given
sources and are passed as black-box function parameters, applied exactly
where the source applies them. `rootSync !== undefined` is
`rootSync ≠ none`; `if (rootSync)` inside that branch distinguishes the
present resource (`some (some _)`) from `null` (`some none`). -/
def renderOptions (mode : PackageRevisionPageMode)
    (packageRevision : PackageRevision)
    (repositorySummary : RepositorySummary)
    (rootSync : Option (Option RootSync))
    (syncStatus : Option SyncStatus)
    (isDeploymentRepository : Repository → Bool)
    (canCloneOrDeploy : PackageRevision → Bool)
    (getPackageDescriptor : Repository → String) : List PageOption :=
  let editOptions :=
    if mode = PackageRevisionPageMode.EDIT then
      [PageOption.cancelButton, PageOption.saveButton]
    else []
  let viewOptions :=
    if mode = PackageRevisionPageMode.VIEW then
      let isDraft := packageRevision.spec.lifecycle = PackageRevisionLifecycle.DRAFT
      let isProposed := packageRevision.spec.lifecycle = PackageRevisionLifecycle.PROPOSED
      let isPublished := packageRevision.spec.lifecycle = PackageRevisionLifecycle.PUBLISHED
      let isDeployment := isDeploymentRepository repositorySummary.repository
      let labelOptions :=
        if isDraft ∨ isProposed then
          [PageOption.lifecycleLabel packageRevision.spec.lifecycle
            (getPackageDescriptor repositorySummary.repository)]
        else []
      let draftOptions :=
        if isDraft then [PageOption.editButton, PageOption.proposeButton] else []
      let proposedOptions :=
        if isProposed then [PageOption.moveToDraftButton, PageOption.approveButton]
        else []
      let publishedOptions :=
        if isPublished ∧ isDeployment ∧ rootSync ≠ none then
          match rootSync with
          | some (some _) =>
            [PageOption.syncStatusDisplay (getCurrentSyncStatus syncStatus rootSync)]
          | _ => [PageOption.createSyncButton]
        else []
      let deployOptions :=
        if repositorySummary.downstreamRepositories.length > 0 ∧
            canCloneOrDeploy packageRevision then
          [PageOption.deployButton]
        else []
      labelOptions ++ draftOptions ++ proposedOptions ++ publishedOptions ++
        deployOptions
    else []
  editOptions ++ viewOptions

/-- The resources payload of `getPackageRevisionResources`:
`resourcesResponse.spec.resources` is a map from file path to file
contents. -/
structure PackageRevisionResources where
  resources : List (String × String)
deriving DecidableEq, Repr

/-- Response wrapper of `getPackageRevisionResources`. -/
structure ResourcesResponse where
  spec : PackageRevisionResources
deriving DecidableEq, Repr

/-- The local state written by `loadPackageRevision`. -/
structure LoadedState where
  repositorySummary : Option RepositorySummary
  packageRevision : Option PackageRevision
  resourcesMap : List (String × String)
deriving DecidableEq, Repr

/-- `Promise.all` over the three initial fetches: resolves with all three
values when all succeed, otherwise rejects with the error of a failed
fetch (the first in array order). -/
def promiseAll3 (repositoryResponse : Except ApiError RepositorySummary)
    (packageRevisionResponse : Except ApiError PackageRevision)
    (resourcesResponse : Except ApiError ResourcesResponse) :
    Except ApiError (RepositorySummary × PackageRevision × ResourcesResponse) :=
  match repositoryResponse with
  | Except.error e => Except.error e
  | Except.ok a =>
    match packageRevisionResponse with
    | Except.error e => Except.error e
    | Except.ok b =>
      match resourcesResponse with
      | Except.error e => Except.error e
      | Except.ok c => Except.ok (a, b, c)

/-- Embedding of `loadPackageRevision` (source lines 122–137): fan out
the three fetches, join on all of them, and only after the join apply
all three responses to local state; a rejection leaves local state
untouched and surfaces the error (via `useAsync`). -/
def loadPackageRevision (repositoryResponse : Except ApiError RepositorySummary)
    (packageRevisionResponse : Except ApiError PackageRevision)
    (resourcesResponse : Except ApiError ResourcesResponse)
    (st : LoadedState) : LoadedState × Option ApiError :=
  match promiseAll3 repositoryResponse packageRevisionResponse resourcesResponse with
  | Except.ok (a, b, c) =>
    ({ repositorySummary := some a
       packageRevision := some b
       resourcesMap := c.spec.resources }, none)
  | Except.error e => (st, some e)

/-- The top-level render gate (source lines 195–203), abstracted to which
branch renders: the progress bar while loading, the page-level error
alert when the load failed, the fallback alert when a value is
unexpectedly undefined, or the page content. -/
inductive PageRender where
  | progress
  | errorAlert (message : ApiError)
  | unexpectedUndefinedAlert
  | pageContent (repositorySummary : RepositorySummary)
      (packageRevision : PackageRevision)
deriving DecidableEq, Repr

/-- Embedding of the render gate: `loading` renders `Progress`, an error
renders only the error alert, and the content renders only once both the
repository summary and the revision are present. -/
def renderPage (loading : Bool) (loadError : Option ApiError)
    (st : LoadedState) : PageRender :=
  if loading then PageRender.progress
  else
    match loadError with
    | some e => PageRender.errorAlert e
    | none =>
      match st.repositorySummary, st.packageRevision with
      | some rs, some pr => PageRender.pageContent rs pr
      | _, _ => PageRender.unexpectedUndefinedAlert

/-- Reference of a role binding to the role it grants
(`roleBinding.roleRef`). -/
structure RoleRef where
  kind : String
  name : String
deriving DecidableEq, Repr

/-- One subject of a role binding. -/
structure RoleBindingSubject where
  kind : String
  name : String
deriving DecidableEq, Repr

/-- A RoleBinding resource, as read by the structured-metadata helper. -/
structure RoleBinding where
  roleRef : RoleRef
  subjects : List RoleBindingSubject
deriving DecidableEq, Repr

/-- Embedding of `getRoleBindingStructuredMetadata`: the loop over
`roleBinding.subjects.entries()` produces, per `(index, subject)`, the
key `Role Binding` (single subject) or `` `Role Binding ${index + 1}` ``
(several subjects) mapped to the two-line value; distinct keys make the
metadata object a list of key/value pairs in loop order. -/
def getRoleBindingStructuredMetadata (roleBinding : RoleBinding) :
    List (String × List String) :=
  roleBinding.subjects.enum.map fun entry =>
    let index := entry.1
    let subject := entry.2
    let name :=
      if roleBinding.subjects.length > 1 then
        "Role Binding " ++ toString (index + 1)
      else "Role Binding"
    (name,
      [roleBinding.roleRef.kind ++ ": " ++ roleBinding.roleRef.name,
       subject.kind ++ ": " ++ subject.name])

/-! Concrete fixtures used by witnesses and counterexamples. -/

/-- A sample proposed package revision. -/
def samplePackageRevision : PackageRevision :=
  { metadata := { name := "blueprints:basens:v1" }
    spec := { packageName := "basens"
              repository := "blueprints"
              lifecycle := PackageRevisionLifecycle.PROPOSED } }

/-- A sample page state holding the sample revision, no request in
flight. -/
def samplePageState : PageState :=
  { packageRevision := samplePackageRevision, userInitiatedApiRequest := false }

/-- A backend that accepts every submission and returns it unchanged. -/
def acceptingServer : PackageRevision → Except ApiError PackageRevision :=
  fun r => Except.ok r

/-- A backend whose calls all throw. -/
def failingServer : PackageRevision → Except ApiError PackageRevision :=
  fun _ => Except.error "backend unavailable"

/-- A RootSync that has not yet reported status. -/
def rootSyncNoStatus : RootSync :=
  { metadata := { name := "blueprints-basens-v1" }
    repositoryName := "deployments"
    packageRevisionName := "blueprints:basens:v1"
    secretName := "blueprints-basens-v1-sync"
    status := none }

/-- A RootSync whose reconciler has reported a status. -/
def rootSyncWithStatus : RootSync :=
  { rootSyncNoStatus with status := some { observedState := "Synced" } }

/-- A sample black-box status derivation, mapping the raw observed state
straight into the classification. -/
def sampleGetSyncStatus : RootSyncStatus → SyncStatus :=
  fun st => { state := st.observedState, errors := none }

/-- A sample backend surface for `createSync` on which every call
succeeds. -/
def sampleSyncApi : SyncApi :=
  { getSecret := fun n => Except.ok { metadata := { name := n }, data := [("token", "abc")] }
    createSecret := fun s => Except.ok s
    createRootSync := fun rs => Except.ok rs }

/-- A repository summary whose repository carries a git secret
reference. -/
def sampleRepositorySummary : RepositorySummary :=
  { repository :=
      { name := "deployments"
        spec := { git := some { secretRef := some { name := "git-auth" } } } }
    downstreamRepositories := [] }

/-- A repository summary whose repository carries a git secret reference
holding the empty string as its name. -/
def emptySecretNameRepoSummary : RepositorySummary :=
  { repository :=
      { name := "deployments"
        spec := { git := some { secretRef := some { name := "" } } } }
    downstreamRepositories := [] }

/-! Theorems settling the claims. -/

/-- C5: for every derived SyncStatus, `getAlertSeverity` maps Error and
Stalled to `error`, Reconciling and Pending to `info`, Synced to
`success`, and any other state value to `error` as the fail-safe
default. -/
theorem getAlertSeverity_maps_states (s : SyncStatus) :
    ((s.state = "Error" ∨ s.state = "Stalled") → getAlertSeverity s = "error") ∧
    ((s.state = "Reconciling" ∨ s.state = "Pending") → getAlertSeverity s = "info") ∧
    (s.state = "Synced" → getAlertSeverity s = "success") ∧
    (s.state ≠ "Error" → s.state ≠ "Stalled" → s.state ≠ "Reconciling" →
      s.state ≠ "Pending" → s.state ≠ "Synced" → getAlertSeverity s = "error") := by
  unfold getAlertSeverity
  refine ⟨?_, ?_, ?_, ?_⟩
  · rintro (h | h) <;> simp [h]
  · rintro (h | h) <;> simp [h]
  · intro h; simp [h]
  · intro h1 h2 h3 h4 h5; simp [h1, h2, h3, h4, h5]

/-- Witness for C5 at the concrete states Stalled, Synced, Pending and an
unrecognized state. -/
theorem getAlertSeverity_maps_states_witness :
    getAlertSeverity { state := "Stalled", errors := none } = "error" ∧
    getAlertSeverity { state := "Synced", errors := none } = "success" ∧
    getAlertSeverity { state := "Pending", errors := none } = "info" ∧
    getAlertSeverity { state := "Unrecognized", errors := none } = "error" :=
  ⟨(getAlertSeverity_maps_states _).1 (Or.inr rfl),
   (getAlertSeverity_maps_states _).2.2.1 rfl,
   (getAlertSeverity_maps_states _).2.1 (Or.inr rfl),
   (getAlertSeverity_maps_states _).2.2.2 (by decide) (by decide) (by decide)
     (by decide) (by decide)⟩

/-- C6: on a polling cycle over a present RootSync, the next poll delay
is 1 second when the fetched RootSync has no status and 5 seconds when it
has any status; with no status, no SyncStatus is derived. -/
theorem pollCadence_and_derivation (rs : RootSync)
    (getSyncStatus : RootSyncStatus → SyncStatus) :
    (rs.status = none →
      scheduledPollSeconds (some (some rs)) = some 1 ∧
      deriveSyncStatus getSyncStatus (some (some rs)) = none) ∧
    (∀ st, rs.status = some st →
      scheduledPollSeconds (some (some rs)) = some 5) := by
  constructor
  · intro h
    simp [scheduledPollSeconds, refreshSeconds, deriveSyncStatus, h]
  · intro st h
    simp [scheduledPollSeconds, refreshSeconds, h]

/-- Witness for C6 at a status-less RootSync and at one with a reported
status. -/
theorem pollCadence_and_derivation_witness :
    (scheduledPollSeconds (some (some rootSyncNoStatus)) = some 1 ∧
      deriveSyncStatus sampleGetSyncStatus (some (some rootSyncNoStatus)) = none) ∧
    scheduledPollSeconds (some (some rootSyncWithStatus)) = some 5 :=
  ⟨(pollCadence_and_derivation rootSyncNoStatus sampleGetSyncStatus).1 rfl,
   (pollCadence_and_derivation rootSyncWithStatus sampleGetSyncStatus).2
     { observedState := "Synced" } rfl⟩

/-- C7: sync-secret name derivation replaces every `:` with `-` and
appends `-sync`; in particular `repo:pkg:v1` yields `repo-pkg-v1-sync`,
and no derived name ever contains a colon. -/
theorem syncSecretName_derivation :
    syncSecretName "repo:pkg:v1" = "repo-pkg-v1-sync" ∧
    ∀ n : String, (syncSecretName n).data.count ':' = 0 := by
  constructor
  · rfl
  · intro n
    unfold syncSecretName sanitizeRevisionName
    rw [List.count_eq_zero]
    intro hmem
    rw [show (String.mk (n.data.map fun c => if c = ':' then '-' else c) ++ "-sync").data
        = (n.data.map fun c => if c = ':' then '-' else c) ++ "-sync".data from rfl] at hmem
    rcases List.mem_append.mp hmem with h | h
    · rcases List.mem_map.mp h with ⟨a, _, ha⟩
      by_cases hc : a = ':' <;> simp [hc] at ha
    · simp at h

/-- C9: the derived SyncStatus is undefined whenever no RootSync is
tracked (undefined or null) or the tracked RootSync has no status; the UI
renders the `No Status` warning exactly in the present-but-statusless
case and a status alert in the known-status case. -/
theorem syncStatus_invariant (getSyncStatus : RootSyncStatus → SyncStatus)
    (rootSync : Option (Option RootSync)) :
    (rootSync = none → deriveSyncStatus getSyncStatus rootSync = none) ∧
    (rootSync = some none → deriveSyncStatus getSyncStatus rootSync = none) ∧
    (∀ rs, rootSync = some (some rs) → rs.status = none →
      deriveSyncStatus getSyncStatus rootSync = none ∧
      getCurrentSyncStatus (deriveSyncStatus getSyncStatus rootSync) rootSync =
        SyncBanner.noStatusWarning) ∧
    (∀ s, getCurrentSyncStatus (some s) rootSync =
      SyncBanner.statusAlert (getAlertSeverity s) s.state) := by
  refine ⟨?_, ?_, ?_, ?_⟩
  · intro h; subst h; rfl
  · intro h; subst h; rfl
  · intro rs h hst; subst h
    simp [deriveSyncStatus, getCurrentSyncStatus, hst]
  · intro s; rfl

/-- Witness for C9 at the undefined, null, present-without-status and
known-status cases. -/
theorem syncStatus_invariant_witness :
    deriveSyncStatus sampleGetSyncStatus none = none ∧
    deriveSyncStatus sampleGetSyncStatus (some none) = none ∧
    (deriveSyncStatus sampleGetSyncStatus (some (some rootSyncNoStatus)) = none ∧
      getCurrentSyncStatus
        (deriveSyncStatus sampleGetSyncStatus (some (some rootSyncNoStatus)))
        (some (some rootSyncNoStatus)) = SyncBanner.noStatusWarning) ∧
    getCurrentSyncStatus (some { state := "Synced", errors := none })
      (some (some rootSyncWithStatus)) =
      SyncBanner.statusAlert "success" "Synced" :=
  ⟨(syncStatus_invariant sampleGetSyncStatus none).1 rfl,
   (syncStatus_invariant sampleGetSyncStatus (some none)).2.1 rfl,
   (syncStatus_invariant sampleGetSyncStatus (some (some rootSyncNoStatus))).2.2.1
     rootSyncNoStatus rfl rfl,
   (syncStatus_invariant sampleGetSyncStatus (some (some rootSyncWithStatus))).2.2.2
     { state := "Synced", errors := none }⟩

/-- C10: `getRoleBindingStructuredMetadata` yields exactly one entry per
subject, keyed `Role Binding` for a single subject and
`Role Binding 1` … `Role Binding N` (1-based) for several, each valued
with the role reference line and the subject line; an empty subjects list
yields the empty map (immediate from the length equation). -/
theorem roleBindingMetadata_entries (rb : RoleBinding) :
    (getRoleBindingStructuredMetadata rb).length = rb.subjects.length ∧
    ∀ i : Nat, (getRoleBindingStructuredMetadata rb)[i]? =
      rb.subjects[i]?.map fun subject =>
        ((if rb.subjects.length > 1 then "Role Binding " ++ toString (i + 1)
          else "Role Binding"),
         [rb.roleRef.kind ++ ": " ++ rb.roleRef.name,
          subject.kind ++ ": " ++ subject.name]) := by
  constructor
  · simp [getRoleBindingStructuredMetadata]
  · intro i
    simp [getRoleBindingStructuredMetadata, List.getElem?_enum, Option.map_map]
    rfl

/-- C1: in VIEW mode, the action controls produced by `renderOptions`
are exactly the lifecycle table — Draft yields Edit and Propose, Proposed
yields Move-to-Draft and Approve, Published in a deployment repository
yields Create-Sync when the resolved sync is null and the sync-status
display when a sync is present — with Deploy appended iff the summary has
a downstream repository and the revision is clone/deploy-eligible. -/
theorem renderOptions_view_actions (pr : PackageRevision) (rs : RepositorySummary)
    (rootSync : Option (Option RootSync)) (syncStatus : Option SyncStatus)
    (isDeploymentRepository : Repository → Bool)
    (canCloneOrDeploy : PackageRevision → Bool)
    (getPackageDescriptor : Repository → String) :
    (renderOptions PackageRevisionPageMode.VIEW pr rs rootSync syncStatus
        isDeploymentRepository canCloneOrDeploy getPackageDescriptor).filter
        isActionOption =
      (match pr.spec.lifecycle, rootSync with
       | PackageRevisionLifecycle.DRAFT, _ =>
         [PageOption.editButton, PageOption.proposeButton]
       | PackageRevisionLifecycle.PROPOSED, _ =>
         [PageOption.moveToDraftButton, PageOption.approveButton]
       | PackageRevisionLifecycle.PUBLISHED, none => []
       | PackageRevisionLifecycle.PUBLISHED, some none =>
         if isDeploymentRepository rs.repository then
           [PageOption.createSyncButton]
         else []
       | PackageRevisionLifecycle.PUBLISHED, some (some _) =>
         if isDeploymentRepository rs.repository then
           [PageOption.syncStatusDisplay (getCurrentSyncStatus syncStatus rootSync)]
         else []) ++
      (if rs.downstreamRepositories.length > 0 ∧ canCloneOrDeploy pr then
        [PageOption.deployButton]
       else []) := by
  cases h : pr.spec.lifecycle <;> rcases rootSync with _ | (_ | rsx) <;>
    cases hd : isDeploymentRepository rs.repository <;>
      (unfold renderOptions; simp [h, hd, isActionOption, getCurrentSyncStatus]) <;>
        (intros; subst_vars; rfl)

/-- The full-resource submission contract of one transition operation:
the fixed endpoint, a request equal to the held revision with only the
lifecycle field changed, adoption of the server's returned resource on
success, and an untouched local revision plus propagated error on
failure. -/
def fullResourceSubmission
    (op : PageState → (PackageRevision → Except ApiError PackageRevision) →
      TransitionResult)
    (endpoint : TransitionEndpoint)
    (lifecycle : PackageRevisionLifecycle) : Prop :=
  ∀ (st : PageState) (server : PackageRevision → Except ApiError PackageRevision),
    (op st server).endpoint = endpoint ∧
    (op st server).request.metadata = st.packageRevision.metadata ∧
    (op st server).request.spec.packageName = st.packageRevision.spec.packageName ∧
    (op st server).request.spec.repository = st.packageRevision.spec.repository ∧
    (op st server).request.spec.lifecycle = lifecycle ∧
    (op st server).finalState.packageRevision =
      (match server ((op st server).request) with
       | Except.ok updated => updated
       | Except.error _ => st.packageRevision) ∧
    (op st server).error =
      (match server ((op st server).request) with
       | Except.ok _ => none
       | Except.error e => some e)

/-- Counterexample for C2 as stated: `approvePackage` does not submit via
the replace endpoint — it calls `api.approvePackageRevision`. -/
theorem approvePackage_endpoint_not_replace :
    (approvePackage samplePageState acceptingServer).endpoint ≠
      TransitionEndpoint.replacePackageRevision := by
  decide

/-- C2 (amended): each transition deep-copies the held revision, changes
only its lifecycle field (to DRAFT, PROPOSED, PUBLISHED respectively),
submits the whole resource — `moveToDraft` and `moveToProposed` via the
replace endpoint, `approvePackage` via the dedicated approve endpoint —
and on success replaces the local revision with the server's returned
resource. -/
theorem transitions_full_resource_submission :
    fullResourceSubmission moveToDraft TransitionEndpoint.replacePackageRevision
      PackageRevisionLifecycle.DRAFT ∧
    fullResourceSubmission moveToProposed TransitionEndpoint.replacePackageRevision
      PackageRevisionLifecycle.PROPOSED ∧
    fullResourceSubmission approvePackage TransitionEndpoint.approvePackageRevision
      PackageRevisionLifecycle.PUBLISHED := by
  refine ⟨?_, ?_, ?_⟩ <;>
    · intro st server
      simp only [moveToDraft, moveToProposed, approvePackage, runTransition,
        withLifecycle, fullResourceSubmission]
      cases h : server
          { st.packageRevision with
            spec := { st.packageRevision.spec with
              lifecycle := PackageRevisionLifecycle.DRAFT } } <;>
        cases h2 : server
            { st.packageRevision with
              spec := { st.packageRevision.spec with
                lifecycle := PackageRevisionLifecycle.PROPOSED } } <;>
          cases h3 : server
              { st.packageRevision with
                spec := { st.packageRevision.spec with
                  lifecycle := PackageRevisionLifecycle.PUBLISHED } } <;>
            simp_all

/-- C3: for every lifecycle transition, a thrown backend call leaves the
locally held revision unchanged, and the in-flight flag is cleared on
both the success and the failure path. -/
theorem transition_failure_preserves_state (st : PageState)
    (server : PackageRevision → Except ApiError PackageRevision) :
    (∀ e, (moveToDraft st server).error = some e →
      (moveToDraft st server).finalState.packageRevision = st.packageRevision) ∧
    (moveToDraft st server).finalState.userInitiatedApiRequest = false ∧
    (∀ e, (moveToProposed st server).error = some e →
      (moveToProposed st server).finalState.packageRevision = st.packageRevision) ∧
    (moveToProposed st server).finalState.userInitiatedApiRequest = false ∧
    (∀ e, (approvePackage st server).error = some e →
      (approvePackage st server).finalState.packageRevision = st.packageRevision) ∧
    (approvePackage st server).finalState.userInitiatedApiRequest = false := by
  simp only [moveToDraft, moveToProposed, approvePackage, runTransition,
    withLifecycle]
  refine ⟨?_, ?_, ?_, ?_, ?_, ?_⟩ <;>
    first
    | (intro e he
       revert he
       cases h : server
           { st.packageRevision with
             spec := { st.packageRevision.spec with
               lifecycle := PackageRevisionLifecycle.DRAFT } } <;>
         cases h2 : server
             { st.packageRevision with
               spec := { st.packageRevision.spec with
                 lifecycle := PackageRevisionLifecycle.PROPOSED } } <;>
           cases h3 : server
               { st.packageRevision with
                 spec := { st.packageRevision.spec with
                   lifecycle := PackageRevisionLifecycle.PUBLISHED } } <;>
             simp_all)
    | (cases h : server
           { st.packageRevision with
             spec := { st.packageRevision.spec with
               lifecycle := PackageRevisionLifecycle.DRAFT } } <;>
         cases h2 : server
             { st.packageRevision with
               spec := { st.packageRevision.spec with
                 lifecycle := PackageRevisionLifecycle.PROPOSED } } <;>
           cases h3 : server
               { st.packageRevision with
                 spec := { st.packageRevision.spec with
                   lifecycle := PackageRevisionLifecycle.PUBLISHED } } <;>
             simp_all)

/-- Witness for C3: a failing backend leaves the sample page state's
revision unchanged and clears the flag, for all three transitions. -/
theorem transition_failure_preserves_state_witness :
    ((moveToDraft samplePageState failingServer).finalState.packageRevision =
        samplePageState.packageRevision ∧
      (moveToDraft samplePageState failingServer).finalState.userInitiatedApiRequest =
        false) ∧
    ((moveToProposed samplePageState failingServer).finalState.packageRevision =
        samplePageState.packageRevision ∧
      (moveToProposed samplePageState failingServer).finalState.userInitiatedApiRequest =
        false) ∧
    ((approvePackage samplePageState failingServer).finalState.packageRevision =
        samplePageState.packageRevision ∧
      (approvePackage samplePageState failingServer).finalState.userInitiatedApiRequest =
        false) := by
  have h := transition_failure_preserves_state samplePageState failingServer
  exact ⟨⟨h.1 "backend unavailable" rfl, h.2.1⟩,
    ⟨h.2.2.1 "backend unavailable" rfl, h.2.2.2.1⟩,
    ⟨h.2.2.2.2.1 "backend unavailable" rfl, h.2.2.2.2.2⟩⟩


/-- Classifier of a recorded backend call, used to state the strict call
sequence of `createSync` independently of call payloads. -/
def syncApiCallKind : SyncApiCall → String
  | SyncApiCall.getSecret _ => "getSecret"
  | SyncApiCall.createSecret _ => "createSecret"
  | SyncApiCall.createRootSync _ => "createRootSync"

/-- Counterexample for C4 as stated: a repository whose secret reference
is present but holds the empty string as name — `createSync` makes zero
backend calls (JavaScript truthiness treats the empty string as falsy),
so a present secret reference does not imply the steps run. -/
theorem createSync_present_empty_name_noop :
    emptySecretNameRepoSummary.repository.spec.git.bind GitConfig.secretRef ≠ none ∧
    (createSync emptySecretNameRepoSummary samplePackageRevision (some none)
        sampleSyncApi).calls = [] ∧
    (createSync emptySecretNameRepoSummary samplePackageRevision (some none)
        sampleSyncApi).error = none ∧
    (createSync emptySecretNameRepoSummary samplePackageRevision (some none)
        sampleSyncApi).rootSync = some none := by
  refine ⟨by decide, rfl, rfl, rfl⟩

/-- C4 (amended): `createSync` always clears the in-flight flag; with an
absent — or empty, which JavaScript truthiness treats the same — secret
name it issues zero backend calls, raises no error and leaves the tracked
RootSync unchanged; with a nonempty name the backend calls run strictly
in the order get-secret, create-secret, create-sync (the recorded calls
are always a prefix of that sequence), a failure at any step propagates
as the operation's error leaving the tracked RootSync unchanged, and on
success all three calls ran and the created sync is adopted. -/
theorem createSync_guard_and_sequence (rs : RepositorySummary)
    (pr : PackageRevision) (rootSync0 : Option (Option RootSync)) (api : SyncApi) :
    (createSync rs pr rootSync0 api).userInitiatedApiRequest = false ∧
    (((rs.repository.spec.git.bind GitConfig.secretRef).map SecretRef.name = none ∨
      (rs.repository.spec.git.bind GitConfig.secretRef).map SecretRef.name = some "") →
      (createSync rs pr rootSync0 api).calls = [] ∧
      (createSync rs pr rootSync0 api).error = none ∧
      (createSync rs pr rootSync0 api).rootSync = rootSync0) ∧
    (∀ s, (rs.repository.spec.git.bind GitConfig.secretRef).map SecretRef.name = some s →
      s ≠ "" →
      ((createSync rs pr rootSync0 api).calls.map syncApiCallKind =
        ["getSecret", "createSecret", "createRootSync"].take
          (createSync rs pr rootSync0 api).calls.length) ∧
      (∀ e, api.getSecret s = Except.error e →
        (createSync rs pr rootSync0 api).error = some e) ∧
      (∀ repoSecret e, api.getSecret s = Except.ok repoSecret →
        api.createSecret
          (getRootSyncSecret (syncSecretName pr.metadata.name) repoSecret) =
          Except.error e →
        (createSync rs pr rootSync0 api).error = some e) ∧
      (∀ repoSecret created e, api.getSecret s = Except.ok repoSecret →
        api.createSecret
          (getRootSyncSecret (syncSecretName pr.metadata.name) repoSecret) =
          Except.ok created →
        api.createRootSync (getRootSync rs.repository pr created.metadata.name) =
          Except.error e →
        (createSync rs pr rootSync0 api).error = some e) ∧
      (∀ e, (createSync rs pr rootSync0 api).error = some e →
        (createSync rs pr rootSync0 api).rootSync = rootSync0) ∧
      ((createSync rs pr rootSync0 api).error = none →
        (createSync rs pr rootSync0 api).calls.map syncApiCallKind =
          ["getSecret", "createSecret", "createRootSync"] ∧
        ∃ newRootSync, (createSync rs pr rootSync0 api).rootSync =
          some (some newRootSync))) := by
  rcases hname : (rs.repository.spec.git.bind GitConfig.secretRef).map SecretRef.name
    with _ | s
  · simp [createSync, hname]
  · by_cases hs : s = ""
    · subst hs
      simp [createSync, hname]
    · rcases hget : api.getSecret s with e | repoSecret
      · simp_all [createSync, hname, hs, hget, syncApiCallKind]
      · rcases hcs : api.createSecret
            (getRootSyncSecret (syncSecretName pr.metadata.name) repoSecret)
          with e | created
        · simp_all [createSync, hname, hs, hget, hcs, syncApiCallKind]
        · rcases hcr : api.createRootSync
              (getRootSync rs.repository pr created.metadata.name) with e | nrs <;>
            simp_all [createSync, hname, hs, hget, hcs, syncApiCallKind]

/-- Witness for C4: on the sample repository (secret name `git-auth`) and
the all-succeeding backend, all three calls run in order and the created
sync is adopted; the flag ends cleared. -/
theorem createSync_guard_and_sequence_witness :
    (createSync sampleRepositorySummary samplePackageRevision (some none)
        sampleSyncApi).userInitiatedApiRequest = false ∧
    (createSync sampleRepositorySummary samplePackageRevision (some none)
        sampleSyncApi).calls.map syncApiCallKind =
      ["getSecret", "createSecret", "createRootSync"] ∧
    ∃ newRootSync,
      (createSync sampleRepositorySummary samplePackageRevision (some none)
        sampleSyncApi).rootSync = some (some newRootSync) := by
  have h := createSync_guard_and_sequence sampleRepositorySummary
    samplePackageRevision (some none) sampleSyncApi
  have h2 := h.2.2 "git-auth" rfl (by decide)
  exact ⟨h.1, (h2.2.2.2.2.2 rfl).1, (h2.2.2.2.2.2 rfl).2⟩

/-- A sample resources response. -/
def sampleResourcesResponse : ResourcesResponse :=
  { spec := { resources := [("Kptfile", "apiVersion: kpt.dev v1")] } }

/-- The page state before any load has succeeded. -/
def emptyLoadedState : LoadedState :=
  { repositorySummary := none, packageRevision := none, resourcesMap := [] }

/-- C8: the three initial fetches join with no partial-success path — if
any one rejects, local state is left untouched and the page renders only
the load-error alert, whatever local state holds. -/
theorem loadFailure_renders_only_error
    (repositoryResponse : Except ApiError RepositorySummary)
    (packageRevisionResponse : Except ApiError PackageRevision)
    (resourcesResponse : Except ApiError ResourcesResponse) (st : LoadedState)
    (h : (∃ e, repositoryResponse = Except.error e) ∨
      (∃ e, packageRevisionResponse = Except.error e) ∨
      (∃ e, resourcesResponse = Except.error e)) :
    ∃ e, loadPackageRevision repositoryResponse packageRevisionResponse
        resourcesResponse st = (st, some e) ∧
      ∀ st2 : LoadedState, renderPage false (some e) st2 = PageRender.errorAlert e := by
  cases repositoryResponse <;> cases packageRevisionResponse <;>
    cases resourcesResponse <;>
      first
      | exact ⟨_, rfl, fun _ => rfl⟩
      | simp_all

/-- Witness for C8: with the revision fetch rejecting and the other two
succeeding, the load leaves the empty state untouched and the page
renders the error alert. -/
theorem loadFailure_renders_only_error_witness :
    ∃ e, loadPackageRevision (Except.ok sampleRepositorySummary)
        (Except.error "package revision fetch failed")
        (Except.ok sampleResourcesResponse) emptyLoadedState =
        (emptyLoadedState, some e) ∧
      ∀ st2 : LoadedState, renderPage false (some e) st2 = PageRender.errorAlert e :=
  loadFailure_renders_only_error (Except.ok sampleRepositorySummary)
    (Except.error "package revision fetch failed")
    (Except.ok sampleResourcesResponse) emptyLoadedState
    (Or.inr (Or.inl ⟨"package revision fetch failed", rfl⟩))

end Cad
